import Mathlib

/-!
Shallow embedding of the real-time voice-conversation engine
(ElevenLabs conversational client: capture worklet, playback worklet,
websocket handshake, conversation manager, React hook) together with
proofs of the behavioural claims about it.

Sections mirror the source files:
* `Pcm` — the sample-format conversions performed by the two audio
  worklets (`RawAudioProcessor.processAndSendBuffer` float→PCM16 and
  `AudioConcatProcessor.processAudioOutput` PCM16→float).
* `ConcatWorklet` — the playback worklet's message-driven state
  (`handleNewBuffer` / `handleInterruption` / `handleClearInterruption`).
* `WS` — `WebSocketHandler.waitForMetadata` handshake semantics.
* `Manager` — `ConversationManager`: state fields, event dispatch
  (`handleWebSocketMessage` and the per-kind handlers), the outbound
  audio guard, `setVolume`, and the startSession acquisition/unwind.
* `Hook` — the `useConversation` React hook's session coalescing.
-/

namespace Pcm

/-- Truncation toward zero, the conversion JavaScript applies when a
number is stored into an `Int16Array` element (ToInt16 first truncates
the fractional part toward zero). -/
def jsTrunc (q : ℚ) : ℤ := if q < 0 then ⌈q⌉ else ⌊q⌋

/-- Wrap an integer into the signed 16-bit range, as the `Int16Array`
store does after truncation (modulo 2^16, reinterpreted as signed). -/
def toInt16 (n : ℤ) : ℤ := (n + 32768) % 65536 - 32768

/-- The clamp in `RawAudioProcessor.processAndSendBuffer`:
`Math.max(-1, Math.min(1, float32Data[i]))`. -/
def clampSample (x : ℚ) : ℚ := max (-1) (min 1 x)

/-- Float→PCM16 conversion of one sample, from
`RawAudioProcessor.processAndSendBuffer`:
`pcm16Data[i] = sample < 0 ? sample * 32768 : sample * 32767`
after clamping, stored into an `Int16Array`. -/
def floatToPcm16 (x : ℚ) : ℤ :=
  let sample := clampSample x
  if sample < 0 then toInt16 (jsTrunc (sample * 32768))
  else toInt16 (jsTrunc (sample * 32767))

/-- PCM16→float conversion of one sample, from
`AudioConcatProcessor.processAudioOutput`:
`output[i] = this.currentAudioBuffer[this.currentPosition] / 32768`. -/
def pcm16ToFloat (n : ℤ) : ℚ := (n : ℚ) / 32768

/-- Round trip of a single sample through the capture encoding and the
playback decoding. -/
def roundTrip (x : ℚ) : ℚ := pcm16ToFloat (floatToPcm16 x)

end Pcm

namespace ConcatWorklet

/-- State of `AudioConcatProcessor` (playback worklet): the queued
buffers, the buffer currently being played with its position, and the
interrupted/finished flags. -/
structure ConcatState where
  audioBuffers : List (List ℤ)
  currentPosition : ℕ
  currentAudioBuffer : Option (List ℤ)
  isInterrupted : Bool
  isFinished : Bool
  deriving DecidableEq, Repr

/-- Initial worklet state, from the `AudioConcatProcessor` constructor. -/
def initialConcatState : ConcatState :=
  { audioBuffers := []
    currentPosition := 0
    currentAudioBuffer := none
    isInterrupted := false
    isFinished := false }

/-- `handleNewBuffer`: clears the interrupted flag and appends the
buffer to the queue. -/
def handleNewBuffer (buffer : List ℤ) (s : ConcatState) : ConcatState :=
  { s with isInterrupted := false, audioBuffers := s.audioBuffers ++ [buffer] }

/-- `handleInterruption`: sets the interrupted flag; nothing else. -/
def handleInterruptionMsg (s : ConcatState) : ConcatState :=
  { s with isInterrupted := true }

/-- `handleClearInterruption`: if the interrupted flag is set, clears
it, empties the queue and drops the in-progress buffer; otherwise does
nothing. -/
def handleClearInterruption (s : ConcatState) : ConcatState :=
  if s.isInterrupted then
    { s with isInterrupted := false, audioBuffers := [], currentAudioBuffer := none }
  else s

end ConcatWorklet

namespace WS

/-- The handshake payload carried by a `conversation_initiation_metadata`
frame (`conversation_initiation_metadata_event`). -/
structure HandshakeMeta where
  conversationId : String
  agentOutputAudioFormat : String
  deriving DecidableEq, Repr

/-- An inbound websocket text frame as seen by `waitForMetadata`:
either it parses as JSON — with an optional `type` tag and an optional
metadata payload — or `JSON.parse` throws. -/
inductive WSInFrame
  | json (typeTag : Option String) (meta : Option HandshakeMeta)
  | invalid
  deriving DecidableEq, Repr

/-- One occurrence on the socket while `waitForMetadata` is pending:
a message frame, a socket error, or a socket close. -/
inductive SocketOccur
  | msg (frame : WSInFrame)
  | socketError
  | socketClose
  deriving DecidableEq, Repr

/-- Outcome of the promise returned by `waitForMetadata`: resolved with
the metadata payload, rejected, or still pending after the given
occurrences. -/
inductive HandshakeOutcome
  | resolvedMeta (m : Option HandshakeMeta)
  | rejected
  | pending
  deriving DecidableEq, Repr

/-- Semantics of `WebSocketHandler.waitForMetadata` over a finite list
of socket occurrences.  The `error` and `close` listeners stay attached
and reject the promise; the `message` listener is registered with
`once: true`, so only the first message frame ever reaches the handler
(`active` records whether it is still attached).  A first message whose
`type` is `conversation_initiation_metadata` resolves with its payload;
any other first message only logs a warning and consumes the listener,
leaving the promise unsettled (a frame with no `type`, or one on which
`JSON.parse` throws, likewise consumes the listener without settling). -/
def waitForMetadataRun (active : Bool) : List SocketOccur → HandshakeOutcome
  | [] => .pending
  | .socketError :: _ => .rejected
  | .socketClose :: _ => .rejected
  | .msg f :: rest =>
      if active then
        match f with
        | .json (some t) m =>
            if t = "conversation_initiation_metadata" then .resolvedMeta m
            else waitForMetadataRun false rest
        | .json none _ => waitForMetadataRun false rest
        | .invalid => waitForMetadataRun false rest
      else waitForMetadataRun false rest

/-- `waitForMetadata` starts with the once-only message listener armed. -/
def waitForMetadata (occs : List SocketOccur) : HandshakeOutcome :=
  waitForMetadataRun true occs

/-- Handshake metadata frame payload used in concrete evaluations. -/
def sampleMeta : HandshakeMeta :=
  { conversationId := "abc", agentOutputAudioFormat := "pcm_16000" }

end WS

namespace Manager

/-- Connection status of a session (`this.connectionStatus`). -/
inductive ConnectionStatus
  | connecting | connected | disconnecting | disconnected
  deriving DecidableEq, Repr

/-- Conversation mode (`this.conversationMode`). -/
inductive ConversationMode
  | listening | speaking | interrupted
  deriving DecidableEq, Repr

/-- The mutable fields of `ConversationManager` that the dispatch logic
reads and writes: `lastInterruptTime`, `conversationMode`,
`connectionStatus`, `audioVolume`, plus the output gain node's current
value (`audioOutput.gainNode.gain.value`). -/
structure ManagerState where
  lastInterruptTime : ℕ
  conversationMode : ConversationMode
  connectionStatus : ConnectionStatus
  audioVolume : ℚ
  gainValue : ℚ
  deriving DecidableEq, Repr

/-- Field values set by the `ConversationManager` constructor
(gain node of a fresh `GainNode` defaults to 1). -/
def initialManagerState : ManagerState :=
  { lastInterruptTime := 0
    conversationMode := .listening
    connectionStatus := .connecting
    audioVolume := 1
    gainValue := 1 }

/-- Inbound structured events, keyed by the JSON `type` tag, carrying
the fields the handlers actually read.  `interruption` carries the
optional `interruption_event.event_id`; `audio` carries
`audio_event.event_id` and `audio_event.audio_base_64`. -/
inductive InboundEvent
  | interruption (eventId : Option ℕ)
  | agentResponse (text : String)
  | userTranscript (text : String)
  | tentativeAgentResponse (text : String)
  | audio (eventId : ℕ) (audioBase64 : String)
  | ping (eventId : ℕ)
  | other (tag : String)
  deriving DecidableEq, Repr

/-- Externally observable effects emitted while handling one event:
callback invocations, messages posted to the playback worklet's port,
gain-automation calls, the scheduled fade-reset timeout, and outbound
socket sends. -/
inductive Action
  | onModeChange (mode : ConversationMode)
  | onStatusChange (status : ConnectionStatus)
  | onMessage (source : String) (message : String)
  | onDebug (tag : String)
  | onAudioData (bytes : List ℕ)
  | portInterrupt
  | portClearInterrupted
  | portBuffer (bytes : List ℕ)
  | gainRampToFloor
  | scheduleFadeReset
  | sendPong (eventId : ℕ)
  deriving DecidableEq, Repr

/-- `updateConversationMode`: store and notify only when the new mode
differs from the current one. -/
def updateConversationMode (newMode : ConversationMode) (s : ManagerState) :
    ManagerState × List Action :=
  if newMode ≠ s.conversationMode then
    ({ s with conversationMode := newMode }, [.onModeChange newMode])
  else (s, [])

/-- `updateConnectionStatus`: store and notify only when the new status
differs from the current one. -/
def updateConnectionStatus (newStatus : ConnectionStatus) (s : ManagerState) :
    ManagerState × List Action :=
  if newStatus ≠ s.connectionStatus then
    ({ s with connectionStatus := newStatus }, [.onStatusChange newStatus])
  else (s, [])

/-- `fadeOutAudio`: flip the mode to `listening`, post `interrupt` to
the playback worklet, start the exponential gain ramp toward the floor,
and schedule the 2-second fade reset (which will later restore the gain
and post `clearInterrupted`). -/
def fadeOutAudio (s : ManagerState) : ManagerState × List Action :=
  let p := updateConversationMode .listening s
  (p.1, p.2 ++ [.portInterrupt, .gainRampToFloor, .scheduleFadeReset])

/-- `handleInterruption`: if the event carries an
`interruption_event` id, overwrite `lastInterruptTime` with it, then
fade out. -/
def handleInterruption (eventId : Option ℕ) (s : ManagerState) :
    ManagerState × List Action :=
  let s1 := match eventId with
    | some k => { s with lastInterruptTime := k }
    | none => s
  fadeOutAudio s1

/-- `processIncomingAudio`: decode the base64 payload, hand the decoded
bytes to the external audio sink (`onAudioData`), set the live gain to
the configured volume, post `clearInterrupted` and then the decoded
buffer to the playback worklet.  `b64decode` is the byte-level
`base64ToArrayBuffer` codec, carried as a parameter. -/
def processIncomingAudio (b64decode : String → List ℕ) (base64Audio : String)
    (s : ManagerState) : ManagerState × List Action :=
  let bytes := b64decode base64Audio
  ({ s with gainValue := s.audioVolume },
   [.onAudioData bytes, .portClearInterrupted, .portBuffer bytes])

/-- `handleIncomingAudio`: the ordering guard
`if (this.lastInterruptTime <= data.audio_event.event_id)` — when it
passes, process the audio and set the mode to `speaking`; otherwise do
nothing at all. -/
def handleIncomingAudio (b64decode : String → List ℕ) (eventId : ℕ)
    (audioBase64 : String) (s : ManagerState) : ManagerState × List Action :=
  if s.lastInterruptTime ≤ eventId then
    let p1 := processIncomingAudio b64decode audioBase64 s
    let p2 := updateConversationMode .speaking p1.1
    (p2.1, p1.2 ++ p2.2)
  else (s, [])

/-- `handleWebSocketMessage`'s dispatch switch over the event `type`.
The `interruption` arm first flips the mode to `interrupted`, then runs
`handleInterruption`. -/
def dispatch (b64decode : String → List ℕ) (s : ManagerState) :
    InboundEvent → ManagerState × List Action
  | .interruption eid =>
      let p1 := updateConversationMode .interrupted s
      let p2 := handleInterruption eid p1.1
      (p2.1, p1.2 ++ p2.2)
  | .agentResponse t => (s, [.onMessage "ai" t])
  | .userTranscript t => (s, [.onMessage "user" t])
  | .tentativeAgentResponse _ => (s, [.onDebug "tentative_agent_response"])
  | .audio eid b64 => handleIncomingAudio b64decode eid b64 s
  | .ping eid => (s, [.sendPong eid])
  | .other tag => (s, [.onDebug tag])

/-- Process a list of inbound events in arrival order, threading the
manager state and concatenating the emitted actions. -/
def runEvents (b64decode : String → List ℕ) (s : ManagerState) :
    List InboundEvent → ManagerState × List Action
  | [] => (s, [])
  | e :: rest =>
      let p1 := dispatch b64decode s e
      let p2 := runEvents b64decode p1.1 rest
      (p2.1, p1.2 ++ p2.2)

/-- Outbound websocket frames the manager can send. -/
inductive OutboundFrame
  | userAudioChunk (base64 : String)
  deriving DecidableEq, Repr

/-- `handleInputAudioMessage`: a captured chunk arriving from the input
worklet is base64-encoded and sent iff `connectionStatus === "connected"`;
otherwise nothing happens (the chunk is discarded, no state touched, no
buffering).  `b64encode` is the `arrayBufferToBase64` codec. -/
def handleInputAudioMessage (b64encode : List ℕ → String)
    (s : ManagerState) (chunk : List ℕ) : List OutboundFrame :=
  if s.connectionStatus = .connected then [.userAudioChunk (b64encode chunk)]
  else []

/-- `setVolume`: stores the new volume in `this.audioVolume` and does
nothing else. -/
def setVolume (volume : ℚ) (s : ManagerState) : ManagerState :=
  { s with audioVolume := volume }

/-- Resources acquired during `startSession`, in acquisition order:
microphone input handler, websocket handler, audio output handler. -/
inductive Resource
  | mic | ws | out
  deriving DecidableEq, Repr

/-- Observable steps of `ConversationManager.startSession`: status
callbacks, successful resource acquisitions and resource closes. -/
inductive StartAction
  | statusChange (status : ConnectionStatus)
  | openRes (r : Resource)
  | closeRes (r : Resource)
  deriving DecidableEq, Repr

/-- Environment for one `startSession` run: for each acquisition step,
`none` means the `create` call succeeds, `some e` means it throws `e`.
(A failing `create` cleans up its own internals and leaves the local
variable `null`.) -/
structure StartEnv where
  micFail : Option String
  wsFail : Option String
  outFail : Option String
  deriving DecidableEq, Repr

/-- Trace semantics of `ConversationManager.startSession`: emit
`connecting`, acquire mic, websocket and output in order; on the first
failure run the catch block — `onStatusChange("disconnected")`, then
`wsConnection?.close()`, `await audioInput?.close()`,
`await audioOutput?.close()` (null handles skipped) — and rethrow.  On
success the constructor runs and `updateConnectionStatus("connected")`
fires. -/
def startSessionTrace (env : StartEnv) : List StartAction × Except String Unit :=
  match env.micFail with
  | some e =>
      ([.statusChange .connecting, .statusChange .disconnected], .error e)
  | none =>
      match env.wsFail with
      | some e =>
          ([.statusChange .connecting, .openRes .mic,
            .statusChange .disconnected, .closeRes .mic], .error e)
      | none =>
          match env.outFail with
          | some e =>
              ([.statusChange .connecting, .openRes .mic, .openRes .ws,
                .statusChange .disconnected, .closeRes .ws, .closeRes .mic],
               .error e)
          | none =>
              ([.statusChange .connecting, .openRes .mic, .openRes .ws,
                .openRes .out, .statusChange .connected], .ok ())

/-- The resources opened along a `startSession` trace, in order. -/
def opensOf (tr : List StartAction) : List Resource :=
  tr.filterMap fun a => match a with
    | .openRes r => some r
    | _ => none

/-- The resources closed along a `startSession` trace, in order. -/
def closesOf (tr : List StartAction) : List Resource :=
  tr.filterMap fun a => match a with
    | .closeRes r => some r
    | _ => none

/-- Selector for mode-change notifications among emitted actions. -/
def isModeChangeAction : Action → Bool
  | .onModeChange _ => true
  | _ => false

/-- Manager state reached by processing an `interruption` carrying id
`k` from state `s0` and then the events `mid`. -/
def stateAfterInterrupt (dec : String → List ℕ) (s0 : ManagerState) (k : ℕ)
    (mid : List InboundEvent) : ManagerState :=
  (runEvents dec (dispatch dec s0 (.interruption (some k))).1 mid).1

end Manager

namespace Hook

/-- The `useConversation` hook's refs: `conversationRef` (the active
`ConversationManager`, identified by a session identity), the
`pendingConversationRef` (a promise; here, the identity of the session
it will resolve with), and a count of `Conversation.startSession`
invocations — each invocation opens one fresh set of mic/socket/output
resources. -/
structure HookState where
  convRef : Option ℕ
  pendRef : Option ℕ
  startCalls : ℕ
  deriving DecidableEq, Repr

/-- Hook state on mount: both refs null. -/
def initialHookState : HookState :=
  { convRef := none, pendRef := none, startCalls := 0 }

/-- What a `startSession` call returns to its caller. -/
inductive HookResult
  | sessionObj (sid : ℕ)
  | raisedTypeError
  deriving DecidableEq, Repr

/-- The synchronous prefix of the hook's `startSession` (up to its
first suspension point).  If `conversationRef.current` is set, the code
returns `conversationRef.current.getId()` — but the manager exported by
the client defines `getConversationId`, not `getId`, so this member
call throws a TypeError.  If `pendingConversationRef.current` is set,
the call awaits that promise and returns the conversation object it
resolves with.  Otherwise it invokes `Conversation.startSession` (one
fresh resource set), stores the promise in `pendingConversationRef`,
and suspends at the `await` (result `none` here; see
`startSessionResume`). -/
def startSessionEntry (newSid : ℕ) (s : HookState) :
    HookState × Option HookResult :=
  match s.convRef with
  | some _ => (s, some .raisedTypeError)
  | none =>
      match s.pendRef with
      | some sid => (s, some (.sessionObj sid))
      | none =>
          ({ s with pendRef := some newSid, startCalls := s.startCalls + 1 },
           none)

/-- The continuation after the `await`: store the resolved conversation
in `conversationRef`, return it, and (in the `finally`) null out
`pendingConversationRef`. -/
def startSessionResume (s : HookState) : HookState × Option HookResult :=
  match s.pendRef with
  | some sid =>
      ({ s with convRef := some sid, pendRef := none },
       some (.sessionObj sid))
  | none => (s, none)

end Hook

open Pcm ConcatWorklet WS Manager Hook

/-- C6: after `interrupt` (and no intervening enqueue),
`clearInterrupted` empties the whole pending queue, discards the
in-progress chunk and clears the interrupted flag; without a prior
`interrupt` (flag unset) it leaves the worklet state — queue and
in-progress chunk included — completely unchanged. -/
theorem C6_clearInterrupted_flush_or_noop (s : ConcatState) :
    (handleClearInterruption (handleInterruptionMsg s)).audioBuffers = [] ∧
    (handleClearInterruption (handleInterruptionMsg s)).currentAudioBuffer = none ∧
    (handleClearInterruption (handleInterruptionMsg s)).isInterrupted = false ∧
    (s.isInterrupted = false → handleClearInterruption s = s) := by
  refine ⟨?_, ?_, ?_, ?_⟩ <;>
    simp [handleClearInterruption, handleInterruptionMsg]
  intro h
  simp [h]

/-- C6 witness: the flush/no-op behaviour evaluated at a concrete
worklet state holding one queued buffer and an in-progress chunk. -/
theorem C6_clearInterrupted_witness :
    (handleClearInterruption (handleInterruptionMsg
      { audioBuffers := [[1, 2]], currentPosition := 1,
        currentAudioBuffer := some [3], isInterrupted := false,
        isFinished := false })).audioBuffers = [] ∧
    (handleClearInterruption (handleInterruptionMsg
      { audioBuffers := [[1, 2]], currentPosition := 1,
        currentAudioBuffer := some [3], isInterrupted := false,
        isFinished := false })).currentAudioBuffer = none ∧
    (handleClearInterruption (handleInterruptionMsg
      { audioBuffers := [[1, 2]], currentPosition := 1,
        currentAudioBuffer := some [3], isInterrupted := false,
        isFinished := false })).isInterrupted = false ∧
    (({ audioBuffers := [[1, 2]], currentPosition := 1,
        currentAudioBuffer := some [3], isInterrupted := false,
        isFinished := false } : ConcatState).isInterrupted = false →
      handleClearInterruption
        { audioBuffers := [[1, 2]], currentPosition := 1,
          currentAudioBuffer := some [3], isInterrupted := false,
          isFinished := false } =
        { audioBuffers := [[1, 2]], currentPosition := 1,
          currentAudioBuffer := some [3], isInterrupted := false,
          isFinished := false }) :=
  C6_clearInterrupted_flush_or_noop
    { audioBuffers := [[1, 2]], currentPosition := 1,
      currentAudioBuffer := some [3], isInterrupted := false,
      isFinished := false }

/-- C10: a captured chunk is sent on the websocket iff the connection
status is `connected` at the moment the input worklet emits it; in
every other status the handler sends nothing and discards the chunk
(the handler's output is its complete effect — nothing is buffered for
later). -/
theorem C10_input_chunk_sent_iff_connected
    (b64encode : List ℕ → String) (s : ManagerState) (chunk : List ℕ) :
    (handleInputAudioMessage b64encode s chunk ≠ [] ↔
      s.connectionStatus = .connected) ∧
    (s.connectionStatus = .connected →
      handleInputAudioMessage b64encode s chunk =
        [.userAudioChunk (b64encode chunk)]) ∧
    (s.connectionStatus ≠ .connected →
      handleInputAudioMessage b64encode s chunk = []) := by
  unfold handleInputAudioMessage
  by_cases h : s.connectionStatus = ConnectionStatus.connected <;> simp [h]

/-- C10 witness: evaluation at a connected state and at a connecting
state, with a concrete encoder. -/
theorem C10_input_chunk_witness :
    (handleInputAudioMessage (fun _ => "abc")
        { initialManagerState with connectionStatus := .connected } [1, 2] ≠ [] ↔
      ({ initialManagerState with connectionStatus := .connected } :
        ManagerState).connectionStatus = .connected) ∧
    (({ initialManagerState with connectionStatus := .connected } :
        ManagerState).connectionStatus = .connected →
      handleInputAudioMessage (fun _ => "abc")
        { initialManagerState with connectionStatus := .connected } [1, 2] =
        [.userAudioChunk "abc"]) ∧
    (({ initialManagerState with connectionStatus := .connected } :
        ManagerState).connectionStatus ≠ .connected →
      handleInputAudioMessage (fun _ => "abc")
        { initialManagerState with connectionStatus := .connected } [1, 2] = []) :=
  C10_input_chunk_sent_iff_connected (fun _ => "abc")
    { initialManagerState with connectionStatus := .connected } [1, 2]

/-- C3: behaviour of the handshake wait.  A socket error or close
before the metadata frame rejects, and a first metadata frame resolves
— but a first frame of any other type (here a `ping`) leaves the
connect promise pending instead of rejecting, and because the message
listener was registered `once`, even a metadata frame arriving second
can no longer resolve it. -/
theorem C3_handshake_wrong_first_frame_hangs :
    waitForMetadata [.msg (.json (some "ping") none)] = .pending ∧
    waitForMetadata [.msg (.json (some "ping") none),
      .msg (.json (some "conversation_initiation_metadata") (some sampleMeta))] =
      .pending ∧
    waitForMetadata [.socketError] = .rejected ∧
    waitForMetadata [.socketClose] = .rejected ∧
    waitForMetadata
      [.msg (.json (some "conversation_initiation_metadata") (some sampleMeta))] =
      .resolvedMeta (some sampleMeta) := by
  refine ⟨?_, ?_, ?_, ?_, ?_⟩ <;> rfl

/-- Helper: `updateConversationMode` never touches `lastInterruptTime`. -/
theorem updateConversationMode_lastInterrupt (m : ConversationMode)
    (s : ManagerState) :
    (updateConversationMode m s).1.lastInterruptTime = s.lastInterruptTime := by
  unfold updateConversationMode
  split <;> rfl

/-- Helper: `updateConversationMode` leaves every field except the mode
unchanged, and afterwards the mode is the requested one. -/
theorem updateConversationMode_mode (m : ConversationMode) (s : ManagerState) :
    (updateConversationMode m s).1.conversationMode = m := by
  unfold updateConversationMode
  split
  · rfl
  · next h =>
      push_neg at h
      exact h.symm

/-- Helper: `fadeOutAudio` never touches `lastInterruptTime`. -/
theorem fadeOutAudio_lastInterrupt (s : ManagerState) :
    (fadeOutAudio s).1.lastInterruptTime = s.lastInterruptTime := by
  unfold fadeOutAudio
  simp [updateConversationMode_lastInterrupt]

/-- Helper: dispatching any event that does not carry an
`interruption_event` id leaves `lastInterruptTime` unchanged. -/
theorem dispatch_lastInterrupt_eq (dec : String → List ℕ) (s : ManagerState)
    (e : InboundEvent) (h : ∀ j, e ≠ InboundEvent.interruption (some j)) :
    (dispatch dec s e).1.lastInterruptTime = s.lastInterruptTime := by
  cases e with
  | interruption eid =>
      cases eid with
      | none =>
          simp [dispatch, handleInterruption, fadeOutAudio_lastInterrupt,
            updateConversationMode_lastInterrupt]
      | some j => exact absurd rfl (h j)
  | audio eid b64 =>
      simp only [dispatch, handleIncomingAudio]
      split
      · simp [processIncomingAudio, updateConversationMode_lastInterrupt]
      · rfl
  | agentResponse t => rfl
  | userTranscript t => rfl
  | tentativeAgentResponse t => rfl
  | ping eid => rfl
  | other tag => rfl

/-- Helper: dispatching an `interruption` event that carries id `k`
overwrites `lastInterruptTime` with `k`. -/
theorem dispatch_interruption_sets (dec : String → List ℕ) (s : ManagerState)
    (k : ℕ) :
    (dispatch dec s (.interruption (some k))).1.lastInterruptTime = k := by
  simp [dispatch, handleInterruption, fadeOutAudio_lastInterrupt]

/-- C9 counterexample: `lastInterruptTime` is a plain assignment, not a
maximum — processing `interruption(5)` and then `interruption(3)`
strictly decreases it, refuting monotone non-decrease over arbitrary
event sequences. -/
theorem C9_counterexample_decreasing_interrupt_ids :
    ((dispatch (fun _ => []) initialManagerState
        (.interruption (some 5))).1.lastInterruptTime = 5) ∧
    ((dispatch (fun _ => [])
        ((dispatch (fun _ => []) initialManagerState
          (.interruption (some 5))).1)
        (.interruption (some 3))).1.lastInterruptTime = 3) ∧
    (3 : ℕ) < 5 := by
  refine ⟨rfl, rfl, by norm_num⟩

/-- C9 (amended): `lastInterruptTime` starts at 0 and is written only
by `interruption` events carrying an id, which overwrite it with that
id; consequently it is non-decreasing across an event exactly when any
interruption id the event carries is at least the current value (in
particular, for streams whose interruption ids arrive in non-decreasing
order). -/
theorem C9_lastInterrupt_update_discipline :
    initialManagerState.lastInterruptTime = 0 ∧
    (∀ (dec : String → List ℕ) (s : ManagerState) (e : InboundEvent),
      (∀ j, e ≠ InboundEvent.interruption (some j)) →
      (dispatch dec s e).1.lastInterruptTime = s.lastInterruptTime) ∧
    (∀ (dec : String → List ℕ) (s : ManagerState) (k : ℕ),
      (dispatch dec s (.interruption (some k))).1.lastInterruptTime = k) ∧
    (∀ (dec : String → List ℕ) (s : ManagerState) (e : InboundEvent),
      (∀ j, e = InboundEvent.interruption (some j) → s.lastInterruptTime ≤ j) →
      s.lastInterruptTime ≤ (dispatch dec s e).1.lastInterruptTime) := by
  refine ⟨rfl, dispatch_lastInterrupt_eq, dispatch_interruption_sets, ?_⟩
  intro dec s e h
  by_cases hi : ∃ j, e = InboundEvent.interruption (some j)
  · obtain ⟨j, rfl⟩ := hi
    rw [dispatch_interruption_sets]
    exact h j rfl
  · push_neg at hi
    rw [dispatch_lastInterrupt_eq dec s e fun j => hi j]

/-- C9 witness: the update discipline applied at the initial state to a
`ping` event (which carries no interruption id) and at id 4. -/
theorem C9_lastInterrupt_witness :
    (dispatch (fun _ => []) initialManagerState
      (.ping 9)).1.lastInterruptTime = initialManagerState.lastInterruptTime ∧
    initialManagerState.lastInterruptTime ≤
      (dispatch (fun _ => []) initialManagerState
        (.interruption (some 4))).1.lastInterruptTime :=
  ⟨(C9_lastInterrupt_update_discipline.2.1 (fun _ => []) initialManagerState
      (.ping 9) (fun _ h => by cases h)),
   (C9_lastInterrupt_update_discipline.2.2.2 (fun _ => []) initialManagerState
      (.interruption (some 4)) (fun j h => by
        cases h
        exact Nat.zero_le 4))⟩

/-- C8 counterexample: `setVolume` stores the new volume but does not
touch the live output gain — with audio playing (mode `speaking`) and
gain 1, `setVolume 1/2` leaves the gain node at 1, not 1/2. -/
theorem C8_counterexample_live_gain_not_updated :
    (setVolume (1 / 2)
      { initialManagerState with conversationMode := .speaking }).audioVolume =
      1 / 2 ∧
    (setVolume (1 / 2)
      { initialManagerState with conversationMode := .speaking }).gainValue = 1 ∧
    (1 : ℚ) ≠ 1 / 2 := by
  refine ⟨rfl, rfl, by norm_num⟩

/-- C8 (amended): `setVolume` updates only the configured volume
(`audioVolume`); the live gain node value is unchanged by the call and
is brought to the configured volume only when the next accepted `audio`
event is processed (or when the fade-out reset fires). -/
theorem C8_setVolume_deferred_gain (v : ℚ) (s : ManagerState)
    (dec : String → List ℕ) (e : ℕ) (p : String) :
    (setVolume v s).audioVolume = v ∧
    (setVolume v s).gainValue = s.gainValue ∧
    (setVolume v s).conversationMode = s.conversationMode ∧
    (setVolume v s).lastInterruptTime = s.lastInterruptTime ∧
    (s.lastInterruptTime ≤ e →
      (dispatch dec (setVolume v s) (.audio e p)).1.gainValue = v) := by
  refine ⟨rfl, rfl, rfl, rfl, ?_⟩
  intro h
  simp only [dispatch, handleIncomingAudio, setVolume]
  rw [if_pos h]
  simp [processIncomingAudio, updateConversationMode]
  split <;> rfl

/-- C8 witness: the deferred-gain behaviour evaluated at the initial
state, volume 1/2, and an audio event with id 0. -/
theorem C8_setVolume_witness :
    (setVolume (1 / 2) initialManagerState).audioVolume = 1 / 2 ∧
    (setVolume (1 / 2) initialManagerState).gainValue =
      initialManagerState.gainValue ∧
    (setVolume (1 / 2) initialManagerState).conversationMode =
      initialManagerState.conversationMode ∧
    (setVolume (1 / 2) initialManagerState).lastInterruptTime =
      initialManagerState.lastInterruptTime ∧
    (initialManagerState.lastInterruptTime ≤ 0 →
      (dispatch (fun _ => []) (setVolume (1 / 2) initialManagerState)
        (.audio 0 "pp")).1.gainValue = 1 / 2) :=
  C8_setVolume_deferred_gain (1 / 2) initialManagerState (fun _ => []) 0 "pp"

/-- C2: whichever `startSession` step fails first — microphone
acquisition, websocket handshake, or output-device creation — the
resources already opened are closed in reverse order of acquisition,
the status callback fires with `disconnected`, and the original error
is the rejection of the call. -/
theorem C2_startSession_unwind (env : StartEnv) (e : String)
    (h : env.micFail = some e ∨
      (env.micFail = none ∧ env.wsFail = some e) ∨
      (env.micFail = none ∧ env.wsFail = none ∧ env.outFail = some e)) :
    (startSessionTrace env).2 = .error e ∧
    StartAction.statusChange .disconnected ∈ (startSessionTrace env).1 ∧
    closesOf (startSessionTrace env).1 =
      (opensOf (startSessionTrace env).1).reverse := by
  obtain h | ⟨h1, h2⟩ | ⟨h1, h2, h3⟩ := h
  · refine ⟨?_, ?_, ?_⟩ <;> simp [startSessionTrace, closesOf, opensOf, h]
  · refine ⟨?_, ?_, ?_⟩ <;> simp [startSessionTrace, closesOf, opensOf, h1, h2]
  · refine ⟨?_, ?_, ?_⟩ <;>
      simp [startSessionTrace, closesOf, opensOf, h1, h2, h3]

/-- C2 witness: unwind evaluated for a run whose output-device creation
throws, the case with two already-opened resources. -/
theorem C2_startSession_unwind_witness :
    (startSessionTrace
        { micFail := none, wsFail := none, outFail := some "boom" }).2 =
      .error "boom" ∧
    StartAction.statusChange .disconnected ∈
      (startSessionTrace
        { micFail := none, wsFail := none, outFail := some "boom" }).1 ∧
    closesOf (startSessionTrace
        { micFail := none, wsFail := none, outFail := some "boom" }).1 =
      (opensOf (startSessionTrace
        { micFail := none, wsFail := none, outFail := some "boom" }).1).reverse :=
  C2_startSession_unwind
    { micFail := none, wsFail := none, outFail := some "boom" } "boom"
    (Or.inr (Or.inr ⟨rfl, rfl, rfl⟩))

/-- C5 counterexample: a `startSession` call made while a session is
already active (conversationRef set) does not return the session
object: the code calls `conversationRef.current.getId()`, a method the
manager does not define (it exposes `getConversationId`), so the call
raises instead of returning the in-flight session. -/
theorem C5_counterexample_active_call_not_session :
    (startSessionEntry 2
      { convRef := some 1, pendRef := none, startCalls := 1 }).2 =
      some HookResult.raisedTypeError ∧
    (startSessionEntry 2
      { convRef := some 1, pendRef := none, startCalls := 1 }).2 ≠
      some (HookResult.sessionObj 1) ∧
    (startSessionEntry 2
      { convRef := some 1, pendRef := none, startCalls := 1 }).1.startCalls =
      1 := by
  refine ⟨rfl, by decide, rfl⟩

/-- C5 (amended): two concurrent `startSession` calls — the second
entering while the first is suspended at its `await` — both return the
same session object, and `Conversation.startSession` (hence each
underlying resource set) is invoked exactly once; the second call never
starts a session of its own. -/
theorem C5_concurrent_calls_coalesce (sid1 sid2 : ℕ) :
    (startSessionEntry sid1 initialHookState).2 = none ∧
    (startSessionEntry sid2
      (startSessionEntry sid1 initialHookState).1).2 =
      some (HookResult.sessionObj sid1) ∧
    (startSessionResume
      (startSessionEntry sid2
        (startSessionEntry sid1 initialHookState).1).1).2 =
      some (HookResult.sessionObj sid1) ∧
    (startSessionResume
      (startSessionEntry sid2
        (startSessionEntry sid1 initialHookState).1).1).1.startCalls = 1 ∧
    (startSessionResume
      (startSessionEntry sid2
        (startSessionEntry sid1 initialHookState).1).1).1.convRef =
      some sid1 := by
  refine ⟨rfl, rfl, rfl, rfl, rfl⟩

/-- Helper: processing a list of events none of which carries an
interruption id leaves `lastInterruptTime` unchanged. -/
theorem runEvents_lastInterrupt_eq (dec : String → List ℕ)
    (evs : List InboundEvent) :
    ∀ s : ManagerState,
      (∀ ev ∈ evs, ∀ j, ev ≠ InboundEvent.interruption (some j)) →
      (runEvents dec s evs).1.lastInterruptTime = s.lastInterruptTime := by
  induction evs with
  | nil => intro s _; rfl
  | cons e rest ih =>
      intro s h
      simp only [runEvents]
      rw [ih _ fun ev hev j => h ev (List.mem_cons_of_mem _ hev) j,
        dispatch_lastInterrupt_eq dec s e (h e (List.mem_cons_self _ _))]

/-- C1: after an `interruption` carrying id `k` is processed (followed
by any events that carry no interruption id), `lastInterruptTime` is
`k`; an `audio` event with id strictly below it is dropped — state
untouched, nothing decoded, forwarded, enqueued or mode-changed — and
an `audio` event with id at least `k` is accepted: its payload is
decoded and forwarded to the audio sink, enqueued into the playback
worklet (preceded by `clearInterrupted`), and the mode becomes
`speaking`. -/
theorem C1_interruption_ordering_guard (dec : String → List ℕ)
    (s0 : ManagerState) (k : ℕ) (mid : List InboundEvent)
    (hmid : ∀ ev ∈ mid, ∀ j, ev ≠ InboundEvent.interruption (some j))
    (a : ℕ) (p : String) :
    (stateAfterInterrupt dec s0 k mid).lastInterruptTime = k ∧
    (a < k →
      dispatch dec (stateAfterInterrupt dec s0 k mid) (.audio a p) =
        (stateAfterInterrupt dec s0 k mid, [])) ∧
    (k ≤ a →
      (dispatch dec (stateAfterInterrupt dec s0 k mid)
        (.audio a p)).1.conversationMode = .speaking ∧
      (dispatch dec (stateAfterInterrupt dec s0 k mid)
        (.audio a p)).1.lastInterruptTime = k ∧
      (dispatch dec (stateAfterInterrupt dec s0 k mid) (.audio a p)).2 =
        [.onAudioData (dec p), .portClearInterrupted, .portBuffer (dec p)] ++
          (if (stateAfterInterrupt dec s0 k mid).conversationMode = .speaking
            then [] else [.onModeChange .speaking])) := by
  have hk : (stateAfterInterrupt dec s0 k mid).lastInterruptTime = k := by
    unfold stateAfterInterrupt
    rw [runEvents_lastInterrupt_eq dec mid _ hmid, dispatch_interruption_sets]
  refine ⟨hk, ?_, ?_⟩
  · intro ha
    simp only [dispatch, handleIncomingAudio, hk]
    rw [if_neg (by omega)]
  · intro ha
    by_cases hmode :
        (stateAfterInterrupt dec s0 k mid).conversationMode =
          ConversationMode.speaking
    · simp [dispatch, handleIncomingAudio, processIncomingAudio,
        updateConversationMode, hk, ha, hmode]
    · simp [dispatch, handleIncomingAudio, processIncomingAudio,
        updateConversationMode, hk, ha, hmode, Ne.symm hmode]

/-- C1 witness: the guard evaluated after `interruption(5)` with no
further events, on an accepted audio event with id 7. -/
theorem C1_interruption_guard_witness :
    (stateAfterInterrupt (fun _ => []) initialManagerState 5
      []).lastInterruptTime = 5 ∧
    ((7 : ℕ) < 5 →
      dispatch (fun _ => [])
        (stateAfterInterrupt (fun _ => []) initialManagerState 5 [])
        (.audio 7 "aa") =
        (stateAfterInterrupt (fun _ => []) initialManagerState 5 [], [])) ∧
    ((5 : ℕ) ≤ 7 →
      (dispatch (fun _ => [])
        (stateAfterInterrupt (fun _ => []) initialManagerState 5 [])
        (.audio 7 "aa")).1.conversationMode = .speaking ∧
      (dispatch (fun _ => [])
        (stateAfterInterrupt (fun _ => []) initialManagerState 5 [])
        (.audio 7 "aa")).1.lastInterruptTime = 5 ∧
      (dispatch (fun _ => [])
        (stateAfterInterrupt (fun _ => []) initialManagerState 5 [])
        (.audio 7 "aa")).2 =
        [.onAudioData [], .portClearInterrupted, .portBuffer []] ++
          (if (stateAfterInterrupt (fun _ => []) initialManagerState 5
              []).conversationMode = .speaking
            then [] else [.onModeChange .speaking])) :=
  C1_interruption_ordering_guard (fun _ => []) initialManagerState 5 []
    (by simp) 7 "aa"

/-- C7: the mode-change notification is edge-triggered — updating the
mode to the value it already has emits nothing and changes nothing —
and processing two consecutive accepted `audio` events from `listening`
mode emits exactly one mode-change notification, the single
listening→speaking transition. -/
theorem C7_mode_change_edge_triggered (dec : String → List ℕ)
    (s t : ManagerState) (e1 e2 : ℕ) (p1 p2 : String)
    (hmode : s.conversationMode = .listening)
    (h1 : s.lastInterruptTime ≤ e1) (h2 : s.lastInterruptTime ≤ e2) :
    updateConversationMode t.conversationMode t = (t, []) ∧
    ((runEvents dec s [.audio e1 p1, .audio e2 p2]).2.filter
        isModeChangeAction) = [.onModeChange .speaking] := by
  constructor
  · unfold updateConversationMode
    simp
  · simp [runEvents, dispatch, handleIncomingAudio, processIncomingAudio,
      updateConversationMode, isModeChangeAction, hmode, h1, h2]

/-- C7 witness: the edge-triggered behaviour evaluated from the initial
(listening) state on audio events 0 and 1. -/
theorem C7_mode_change_witness :
    updateConversationMode initialManagerState.conversationMode
      initialManagerState = (initialManagerState, []) ∧
    ((runEvents (fun _ => []) initialManagerState
        [.audio 0 "p1", .audio 1 "p2"]).2.filter
      isModeChangeAction) = [.onModeChange .speaking] :=
  C7_mode_change_edge_triggered (fun _ => []) initialManagerState
    initialManagerState 0 1 "p1" "p2" rfl (by decide) (by decide)

/-- Helper: the `Int16Array` wrap is the identity on values already in
the signed 16-bit range. -/
theorem toInt16_eq_self (n : ℤ) (hlo : -32768 ≤ n) (hhi : n ≤ 32767) :
    toInt16 n = n := by
  unfold toInt16
  omega

/-- C4 counterexample: for the in-range sample 65535/65536 the
encode/decode round trip moves the value by 3/65536 = 1.5/32768,
strictly more than one quantization step: the capture side scales
non-negative samples by 32767 and truncates, while the playback side
divides by 32768, so the error of a sample near 1 approaches two steps. -/
theorem C4_counterexample_roundtrip_exceeds_step :
    1 / 32768 < |roundTrip (65535 / 65536) - 65535 / 65536| := by
  have hclamp : clampSample (65535 / 65536) = 65535 / 65536 := by
    unfold clampSample
    rw [min_eq_right (by norm_num), max_eq_right (by norm_num)]
  have hfloor : ⌊(65535 : ℚ) / 65536 * 32767⌋ = (32766 : ℤ) := by
    rw [Int.floor_eq_iff]
    constructor <;> norm_num
  have henc : floatToPcm16 (65535 / 65536) = 32766 := by
    unfold floatToPcm16 jsTrunc
    rw [hclamp, if_neg (by norm_num), if_neg (by norm_num), hfloor]
    decide
  have hval : roundTrip (65535 / 65536) - 65535 / 65536 = -3 / 65536 := by
    unfold roundTrip pcm16ToFloat
    rw [henc]
    norm_num
  rw [hval, abs_of_neg (by norm_num)]
  norm_num

/-- C4 (amended): for every sample in [-1, 1], encoding to PCM16 as the
capture worklet does (clamp, scale by 32768 for negative and 32767 for
non-negative values, truncate toward zero into an Int16) and decoding
as the playback worklet does (divide by 32768) changes the value by at
most two quantization steps, 2/32768. -/
theorem C4_roundtrip_within_two_steps (x : ℚ) (h1 : -1 ≤ x) (h2 : x ≤ 1) :
    |roundTrip x - x| ≤ 2 / 32768 := by
  have hclamp : clampSample x = x := by
    unfold clampSample
    rw [min_eq_right h2, max_eq_right h1]
  simp only [roundTrip, floatToPcm16, jsTrunc, pcm16ToFloat, hclamp]
  by_cases hx : x < 0
  · have hy0 : x * 32768 < 0 := mul_neg_of_neg_of_pos hx (by norm_num)
    rw [if_pos hx, if_pos hy0]
    have hc1 : x * 32768 ≤ (⌈x * 32768⌉ : ℚ) := Int.le_ceil _
    have hc2 : ((⌈x * 32768⌉ : ℤ) : ℚ) < x * 32768 + 1 := Int.ceil_lt_add_one _
    have hzlo : (-32768 : ℤ) ≤ ⌈x * 32768⌉ := by
      have h : (-32768 : ℚ) ≤ ((⌈x * 32768⌉ : ℤ) : ℚ) := by nlinarith
      exact_mod_cast h
    have hzhi : ⌈x * 32768⌉ ≤ (32767 : ℤ) := by
      have h : ((⌈x * 32768⌉ : ℤ) : ℚ) < 1 := by nlinarith
      have h' : ⌈x * 32768⌉ < (1 : ℤ) := by exact_mod_cast h
      omega
    rw [toInt16_eq_self _ hzlo hzhi, abs_le]
    constructor <;> linarith
  · push_neg at hx
    have hz0 : ¬ x * 32767 < 0 := not_lt.mpr (by positivity)
    rw [if_neg (not_lt.mpr hx), if_neg hz0]
    have hf1 : ((⌊x * 32767⌋ : ℤ) : ℚ) ≤ x * 32767 := Int.floor_le _
    have hf2 : x * 32767 - 1 < ((⌊x * 32767⌋ : ℤ) : ℚ) := Int.sub_one_lt_floor _
    have hzlo : (-32768 : ℤ) ≤ ⌊x * 32767⌋ := by
      have h : (-1 : ℚ) < ((⌊x * 32767⌋ : ℤ) : ℚ) := by nlinarith
      have h' : (-1 : ℤ) < ⌊x * 32767⌋ := by exact_mod_cast h
      omega
    have hzhi : ⌊x * 32767⌋ ≤ (32767 : ℤ) := by
      have h : ((⌊x * 32767⌋ : ℤ) : ℚ) ≤ 32767 := by nlinarith
      exact_mod_cast h
    rw [toInt16_eq_self _ hzlo hzhi, abs_le]
    constructor <;> linarith

/-- C4 witness: the two-step round-trip bound applied to the concrete
sample 1/2. -/
theorem C4_roundtrip_witness :
    (-1 : ℚ) ≤ 1 / 2 ∧ (1 : ℚ) / 2 ≤ 1 ∧
    |roundTrip (1 / 2) - 1 / 2| ≤ 2 / 32768 :=
  ⟨by norm_num, by norm_num,
   C4_roundtrip_within_two_steps (1 / 2) (by norm_num) (by norm_num)⟩
